import Mathlib

/-!
Shallow embedding of the PathFinder decision/matching engine
(`src/lib/engines/path-matcher.ts` together with the data model of
`src/lib/types.ts`).

JavaScript specifics are modelled as follows: the module-level catalog
constants `UNIVERSITIES`, `SCHOLARSHIPS`, `COUNTRIES` become an explicit
`Catalog` argument; `new Date()` / `Date.getTime()` become an explicit
`now : Nat` argument (milliseconds since the epoch); template literals
become string concatenation; `Math.round` on the non-negative weighted
sum becomes `jsRound`; `Array.prototype.sort` with comparator
`(a, b) => b.fitScore.overall - a.fitScore.overall` becomes a stable
sort by descending `overall` (see `generatePaths`); object identity in
`selected.includes(item)` becomes position indices (`List.enum`), since
every element of the scored array is a distinct object.
-/

namespace PathFinder

inductive SituationType
  | dont_know | study_abroad | unsure_choice | something_wrong | explore_safely
  deriving DecidableEq, Repr

inductive BudgetLevel
  | low | medium | high
  deriving DecidableEq, Repr, Fintype

inductive ConfidenceLevel
  | low | medium | high
  deriving DecidableEq, Repr

inductive FearType
  | money | visa | failure | time
  deriving DecidableEq, Repr

inductive EducationStage
  | high_school | bachelors | masters | phd | bootcamp | working
  deriving DecidableEq, Repr

inductive TeachingStyle
  | lecture_heavy | project_based | research_focused | mixed
  deriving DecidableEq, Repr

inductive TuitionTier
  | free | low | medium | high
  deriving DecidableEq, Repr, Fintype

inductive VisaDifficulty
  | easy | medium | hard
  deriving DecidableEq, Repr

/-- Country cost-of-living tier (`"low" | "medium" | "high"`). -/
inductive CostTier
  | low | medium | high
  deriving DecidableEq, Repr

/-- StudentProfile from `src/lib/types.ts`; `createdAt : Date` is modelled
as epoch milliseconds. -/
structure StudentProfile where
  id : String
  situation : SituationType
  currentCountry : String
  targetCountry : Option String
  educationStage : EducationStage
  budgetLevel : BudgetLevel
  mainFear : FearType
  confidenceLevel : ConfidenceLevel
  createdAt : Nat
  deriving DecidableEq, Repr

structure LanguageRequirements where
  primary : String
  alternatives : Option (List String)
  proficiencyRequired : String
  deriving DecidableEq, Repr

structure Tuition where
  currency : String
  annualCost : Nat
  tier : TuitionTier
  deriving DecidableEq, Repr

/-- University from `src/lib/types.ts`; the optional presentation-only
fields `imageUrl` and `dataSource` (never read by the engine) are
omitted, `scrapedAt : Date` is epoch milliseconds. -/
structure University where
  id : String
  name : String
  country : String
  city : String
  ranking : Nat
  teachingStyle : TeachingStyle
  workloadIntensity : Nat
  languageRequirements : LanguageRequirements
  tuition : Tuition
  visaDifficulty : VisaDifficulty
  internationalStudentSupport : Nat
  acceptanceRate : Nat
  website : String
  scrapedAt : Nat
  deriving DecidableEq, Repr

structure ScholarshipEligibility where
  countries : List String
  minGPA : Option Nat
  educationStage : List EducationStage
  ageLimit : Option Nat
  workExperienceRequired : Option Bool
  deriving DecidableEq, Repr

/-- Award amount; `coverage` is the string `"full"` or `"partial"`. -/
structure ScholarshipAmount where
  currency : String
  value : Nat
  coverage : String
  deriving DecidableEq, Repr

structure Scholarship where
  id : String
  name : String
  provider : String
  country : String
  eligibility : ScholarshipEligibility
  amount : ScholarshipAmount
  deadline : Nat
  competitiveness : String
  applicationComplexity : Nat
  website : String
  scrapedAt : Nat
  deriving DecidableEq, Repr

structure CostOfLiving where
  tier : CostTier
  monthlyAverage : Nat
  currency : String
  deriving DecidableEq, Repr

structure VisaProcessing where
  difficulty : VisaDifficulty
  averageProcessingDays : Nat
  successRate : Nat
  requirements : List String
  deriving DecidableEq, Repr

structure PostStudyWork where
  allowed : Bool
  duration : Option String
  restrictions : Option String
  deriving DecidableEq, Repr

structure Country where
  code : String
  name : String
  costOfLiving : CostOfLiving
  languageBarrier : Nat
  cultureShockRisk : Nat
  visaProcessing : VisaProcessing
  postStudyWork : PostStudyWork
  safetyRating : Nat
  scrapedAt : Nat
  deriving DecidableEq, Repr

structure FitBreakdown where
  teaching : ℤ
  workload : ℤ
  language : ℤ
  cost : ℤ
  visa : ℤ
  support : ℤ
  deriving DecidableEq, Repr

structure FitScore where
  overall : ℤ
  breakdown : FitBreakdown
  deriving DecidableEq, Repr

inductive Severity
  | low | medium | high
  deriving DecidableEq, Repr

structure Risk where
  severity : Severity
  likelihood : Nat
  description : String
  mitigation : List String
  deriving DecidableEq, Repr

structure RiskAssessment where
  financial : Risk
  visa : Risk
  academic : Risk
  time : Risk
  deriving DecidableEq, Repr

/-- TimelineEvent; `date : Date` is epoch milliseconds, `type` and
`importance` are the literal strings used by the engine. -/
structure TimelineEvent where
  id : String
  date : Nat
  title : String
  description : String
  type : String
  importance : String
  deriving DecidableEq, Repr

structure Path where
  id : String
  type : String
  name : String
  description : String
  fitScore : FitScore
  risks : RiskAssessment
  notForYouIf : List String
  details : University
  scholarships : List Scholarship
  timeline : List TimelineEvent
  deriving DecidableEq, Repr

/-- The module-level read-only catalog (`UNIVERSITIES`, `SCHOLARSHIPS`,
`COUNTRIES` from `src/lib/data/seed-data`), passed explicitly. -/
structure Catalog where
  universities : List University
  scholarships : List Scholarship
  countries : List Country
  deriving DecidableEq, Repr

/-- Rendering of enum values inside template literals. -/
def BudgetLevel.str : BudgetLevel → String
  | .low => "low" | .medium => "medium" | .high => "high"

def ConfidenceLevel.str : ConfidenceLevel → String
  | .low => "low" | .medium => "medium" | .high => "high"

def VisaDifficulty.str : VisaDifficulty → String
  | .easy => "easy" | .medium => "medium" | .hard => "hard"

def TeachingStyle.str : TeachingStyle → String
  | .lecture_heavy => "lecture-heavy"
  | .project_based => "project-based"
  | .research_focused => "research-focused"
  | .mixed => "mixed"

/-- JavaScript truthiness of an optional string: `undefined` and the
empty string are falsy. -/
def truthy : Option String → Bool
  | none => false
  | some s => s ≠ ""

/-- The apostrophe character, used in the exclusion template literal. -/
def apos : String := String.singleton (Char.ofNat 39)

/-- `filterEligibleUniversities` (path-matcher.ts lines 40-66): hard
constraints; the first guard is `profile.targetCountry &&
profile.targetCountry !== uni.country`, using JS truthiness. -/
def filterEligibleUniversities (universities : List University)
    (profile : StudentProfile) : List University :=
  universities.filter fun uni =>
    if truthy profile.targetCountry && profile.targetCountry != some uni.country then
      false
    else if profile.budgetLevel == .low && uni.tuition.tier == .high then
      false
    else if profile.mainFear == .visa && uni.visaDifficulty == .hard then
      false
    else if profile.confidenceLevel == .low && decide (9 ≤ uni.workloadIntensity) then
      false
    else
      true

def calculateTeachingFit (profile : StudentProfile) (uni : University) : ℤ :=
  if profile.confidenceLevel == .high && uni.teachingStyle == .research_focused then 90
  else if profile.confidenceLevel == .low && uni.teachingStyle == .lecture_heavy then 85
  else if uni.teachingStyle == .mixed then 80
  else 70

/-- The `confidenceMap` of `calculateWorkloadFit`. -/
def workloadConfidenceMap : ConfidenceLevel → ℤ
  | .low => 5 | .medium => 7 | .high => 10

def calculateWorkloadFit (profile : StudentProfile) (uni : University) : ℤ :=
  let maxWorkload := workloadConfidenceMap profile.confidenceLevel
  if (uni.workloadIntensity : ℤ) ≤ maxWorkload then
    100 - (maxWorkload - (uni.workloadIntensity : ℤ)) * 5
  else
    max 0 (100 - ((uni.workloadIntensity : ℤ) - maxWorkload) * 15)

def calculateLanguageFit (profile : StudentProfile) (uni : University) : ℤ :=
  if uni.languageRequirements.primary == "English" then 95
  else if (match uni.languageRequirements.alternatives with
           | some alts => alts.contains "English"
           | none => false) then 80
  else 60

/-- The nested `budgetMap` object literal of `calculateCostFit`:
3 budget levels × 4 tuition tiers. -/
def budgetMap : BudgetLevel → TuitionTier → ℤ
  | .low, .free => 100 | .low, .low => 90 | .low, .medium => 40 | .low, .high => 10
  | .medium, .free => 100 | .medium, .low => 95 | .medium, .medium => 85 | .medium, .high => 50
  | .high, .free => 100 | .high, .low => 95 | .high, .medium => 90 | .high, .high => 85

def calculateCostFit (profile : StudentProfile) (uni : University) : ℤ :=
  budgetMap profile.budgetLevel uni.tuition.tier

def calculateVisaFit (profile : StudentProfile) (uni : University) : ℤ :=
  if profile.mainFear == .visa then
    match uni.visaDifficulty with
    | .easy => 100 | .medium => 60 | .hard => 20
  else
    match uni.visaDifficulty with
    | .easy => 100 | .medium => 85 | .hard => 70

/-- `Math.round`: round half towards positive infinity. -/
def jsRound (q : ℚ) : ℤ := ⌊q + 1/2⌋

/-- `calculateFitScore` (path-matcher.ts lines 71-94).  The source
computes `Math.round(teaching * 0.2 + workload * 0.15 + language * 0.15
+ cost * 0.25 + visa * 0.15 + support * 0.1)`; with the weights scaled
by 100 this is the integer floor of `(20 t + 15 w + 15 l + 25 c + 15 v
+ 10 s + 50) / 100` (the dimension scores are never negative), written
here in executable integer arithmetic; the equality with
`jsRound` of the rational weighted sum is proved below. -/
def calculateFitScore (profile : StudentProfile) (uni : University) : FitScore :=
  let scores : FitBreakdown :=
    { teaching := calculateTeachingFit profile uni
      workload := calculateWorkloadFit profile uni
      language := calculateLanguageFit profile uni
      cost := calculateCostFit profile uni
      visa := calculateVisaFit profile uni
      support := (uni.internationalStudentSupport : ℤ) * 10 }
  let overall :=
    (20 * scores.teaching + 15 * scores.workload + 15 * scores.language +
      25 * scores.cost + 15 * scores.visa + 10 * scores.support + 50) / 100
  { overall := overall, breakdown := scores }

structure ScoredUni where
  university : University
  fitScore : FitScore
  deriving DecidableEq, Repr

/-- The first `for` loop of `selectDiversePaths`: `selLen` is the current
`selected.length`, `countries` the country set; stops when `count`
selections are reached, otherwise takes an item when fewer than 2 are
selected or its country is new. -/
def selectPass1 (count : Nat) :
    List (Nat × ScoredUni) → Nat → List String → List (Nat × ScoredUni)
  | [], _, _ => []
  | item :: rest, selLen, countries =>
    if count ≤ selLen then []
    else if selLen < 2 || !(countries.contains item.2.university.country) then
      item :: selectPass1 count rest (selLen + 1) (item.2.university.country :: countries)
    else
      selectPass1 count rest selLen countries

/-- `selectDiversePaths` (path-matcher.ts lines 153-181).  The trailing
`while` loop repeatedly appends the earliest entry not yet selected
(`selected.includes` is reference identity, hence position indices)
until `selected.length` reaches `min count scored.length`; that is,
it appends the first `min count scored.length - sel1.length` unselected
entries in order. -/
def selectDiversePaths (scored : List ScoredUni) (count : Nat) : List ScoredUni :=
  let indexed := scored.enum
  let sel1 := selectPass1 count indexed 0 []
  let fill := (indexed.filter fun x => !((sel1.map Prod.fst).contains x.1)).take
    (min count scored.length - sel1.length)
  (sel1 ++ fill).map Prod.snd

def assessFinancialRisk (countries : List Country) (profile : StudentProfile)
    (uni : University) : Risk :=
  let budgetMismatch :=
    (profile.budgetLevel == .low && uni.tuition.tier == .medium) ||
      (profile.budgetLevel == .medium && uni.tuition.tier == .high)
  let country := countries.find? fun c => c.name == uni.country
  let highCostOfLiving :=
    match country with
    | some c => c.costOfLiving.tier == .high
    | none => false
  { severity := if budgetMismatch || highCostOfLiving then .high else .low
    likelihood := if budgetMismatch then 70 else 30
    description :=
      if budgetMismatch then
        "Tuition (" ++ uni.tuition.currency ++ " " ++ toString uni.tuition.annualCost ++
          ") may exceed your " ++ profile.budgetLevel.str ++ " budget"
      else
        "Costs are manageable with " ++ profile.budgetLevel.str ++ " budget"
    mitigation :=
      ["Apply for scholarships",
       "Look for part-time work opportunities",
       "Consider student loans",
       "Budget carefully for living expenses"] }

def assessVisaRisk (profile : StudentProfile) (uni : University) : Risk :=
  let difficulty := uni.visaDifficulty
  let severity : Severity :=
    match difficulty with
    | .easy => .low | .medium => .medium | .hard => .high
  let likelihood :=
    match difficulty with
    | .easy => 10 | .medium => 30 | .hard => 60
  { severity := severity
    likelihood := likelihood
    description := "Visa difficulty is " ++ difficulty.str ++ " for " ++ uni.country
    mitigation :=
      ["Start visa process early",
       "Prepare all documents thoroughly",
       "Seek visa consultation",
       "Have backup country options"] }

/-- The `confidenceMap` of `assessAcademicRisk`. -/
def academicConfidenceMap : ConfidenceLevel → Nat
  | .low => 3 | .medium => 7 | .high => 10

def assessAcademicRisk (profile : StudentProfile) (uni : University) : Risk :=
  let studentCapacity := academicConfidenceMap profile.confidenceLevel
  let overload := studentCapacity < uni.workloadIntensity
  { severity := if overload then .high else .low
    likelihood := if overload then 60 else 20
    description :=
      if overload then
        "Workload intensity (" ++ toString uni.workloadIntensity ++
          "/10) may be challenging for your " ++ profile.confidenceLevel.str ++
          " confidence level"
      else
        "Workload is manageable for your confidence level"
    mitigation :=
      ["Start with lighter course load",
       "Use university tutoring services",
       "Form study groups",
       "Manage time effectively"] }

def assessTimeRisk (profile : StudentProfile) (uni : University) : Risk :=
  { severity := .medium
    likelihood := 40
    description := "Potential delays in graduation or visa processing"
    mitigation :=
      ["Plan for buffer time",
       "Stay on top of deadlines",
       "Have contingency plans"] }

def assessRisks (countries : List Country) (profile : StudentProfile)
    (uni : University) : RiskAssessment :=
  { financial := assessFinancialRisk countries profile uni
    visa := assessVisaRisk profile uni
    academic := assessAcademicRisk profile uni
    time := assessTimeRisk profile uni }

/-- `generateExclusions` (path-matcher.ts lines 295-315). -/
def generateExclusions (profile : StudentProfile) (uni : University) : List String :=
  (if 9 ≤ uni.workloadIntensity then
    ["you prefer a relaxed academic environment"] else []) ++
  (if uni.tuition.tier == .high then
    ["you have strict budget constraints"] else []) ++
  (if uni.languageRequirements.primary ≠ "English" &&
      !(match uni.languageRequirements.alternatives with
        | some alts => alts.contains "English"
        | none => false) then
    ["you" ++ apos ++ "re not comfortable learning in " ++
      uni.languageRequirements.primary] else []) ++
  (if uni.acceptanceRate < 10 then
    ["you need a safer acceptance option"] else [])

/-- `findMatchingScholarships` (path-matcher.ts lines 320-337). -/
def findMatchingScholarships (scholarships : List Scholarship)
    (profile : StudentProfile) (uni : University) : List Scholarship :=
  (scholarships.filter fun sch =>
    if sch.country != uni.country then false
    else if !(sch.eligibility.educationStage.contains profile.educationStage) then false
    else if !sch.eligibility.countries.isEmpty &&
        !(sch.eligibility.countries.contains profile.currentCountry) &&
        !(sch.eligibility.countries.contains "All") then false
    else true).take 3

/-- `generateTimeline` (path-matcher.ts lines 342-377): three events at
fixed millisecond offsets from `now` (= `new Date().getTime()`). -/
def generateTimeline (profile : StudentProfile) (uni : University)
    (now : Nat) : List TimelineEvent :=
  [{ id := "evt-1"
     date := now + 180 * 24 * 60 * 60 * 1000
     title := "Application Deadline"
     description := "Submit application to " ++ uni.name
     type := "deadline"
     importance := "high" },
   { id := "evt-2"
     date := now + 270 * 24 * 60 * 60 * 1000
     title := "Visa Application"
     description := "Apply for student visa"
     type := "decision"
     importance := "high" },
   { id := "evt-3"
     date := now + 365 * 24 * 60 * 60 * 1000
     title := "Program Starts"
     description := "Begin studies"
     type := "milestone"
     importance := "high" }]

/-- `buildPath` (path-matcher.ts lines 186-208). -/
def buildPath (catalog : Catalog) (profile : StudentProfile) (uni : University)
    (fitScore : FitScore) (now : Nat) : Path :=
  { id := "path-" ++ uni.id
    type := "university"
    name := "Study at " ++ uni.name
    description :=
      (if uni.ranking ≤ 50 then "Top-ranked" else "Quality") ++ " " ++
        uni.teachingStyle.str ++ " university in " ++ uni.city ++ ", " ++ uni.country
    fitScore := fitScore
    risks := assessRisks catalog.countries profile uni
    notForYouIf := generateExclusions profile uni
    details := uni
    scholarships := findMatchingScholarships catalog.scholarships profile uni
    timeline := generateTimeline profile uni now }

/-- `generatePaths` (path-matcher.ts lines 17-35): filter, score, stable
sort by descending overall fit, diversity-select 3, assemble.
`Array.prototype.sort` with comparator `(a, b) => b.fitScore.overall -
a.fitScore.overall` is a stable sort by descending `overall` (ES2019
requires sort stability); a stable sort result is uniquely determined by
the ordering and the input order, and is realised here by the stable
`List.insertionSort` by descending `overall`. -/
def generatePaths (catalog : Catalog) (profile : StudentProfile) (now : Nat) : List Path :=
  let eligibleUniversities := filterEligibleUniversities catalog.universities profile
  let scoredUniversities := eligibleUniversities.map fun uni =>
    ScoredUni.mk uni (calculateFitScore profile uni)
  let sorted := scoredUniversities.insertionSort fun a b =>
    b.fitScore.overall ≤ a.fitScore.overall
  let selectedPaths := selectDiversePaths sorted 3
  selectedPaths.map fun item => buildPath catalog profile item.university item.fitScore now

/-! Concrete fixtures used as witnesses and counterexample inputs. -/

def exLangEn : LanguageRequirements :=
  { primary := "English", alternatives := none, proficiencyRequired := "intermediate" }

def exUniGer : University :=
  { id := "tum", name := "TU Munich", country := "Germany", city := "Munich"
    ranking := 40, teachingStyle := .mixed, workloadIntensity := 8
    languageRequirements := exLangEn
    tuition := { currency := "EUR", annualCost := 0, tier := .free }
    visaDifficulty := .easy, internationalStudentSupport := 8
    acceptanceRate := 30, website := "https://tum.example", scrapedAt := 0 }

def exUniUS : University :=
  { id := "mit", name := "MIT", country := "USA", city := "Cambridge"
    ranking := 1, teachingStyle := .research_focused, workloadIntensity := 10
    languageRequirements := exLangEn
    tuition := { currency := "USD", annualCost := 60000, tier := .high }
    visaDifficulty := .hard, internationalStudentSupport := 9
    acceptanceRate := 4, website := "https://mit.example", scrapedAt := 0 }

def exUniFr : University :=
  { id := "psl", name := "PSL", country := "France", city := "Paris"
    ranking := 60, teachingStyle := .lecture_heavy, workloadIntensity := 6
    languageRequirements :=
      { primary := "French", alternatives := some ["English"], proficiencyRequired := "basic" }
    tuition := { currency := "EUR", annualCost := 3000, tier := .low }
    visaDifficulty := .medium, internationalStudentSupport := 6
    acceptanceRate := 25, website := "https://psl.example", scrapedAt := 0 }

def exUniGer2 : University :=
  { id := "rwth", name := "RWTH Aachen", country := "Germany", city := "Aachen"
    ranking := 90, teachingStyle := .project_based, workloadIntensity := 7
    languageRequirements := exLangEn
    tuition := { currency := "EUR", annualCost := 600, tier := .free }
    visaDifficulty := .easy, internationalStudentSupport := 7
    acceptanceRate := 40, website := "https://rwth.example", scrapedAt := 0 }

def exScholarship : Scholarship :=
  { id := "daad", name := "DAAD Scholarship", provider := "DAAD", country := "Germany"
    eligibility :=
      { countries := [], minGPA := none, educationStage := [.masters]
        ageLimit := none, workExperienceRequired := none }
    amount := { currency := "EUR", value := 10000, coverage := "full" }
    deadline := 0, competitiveness := "high", applicationComplexity := 5
    website := "https://daad.example", scrapedAt := 0 }

def exCountryGer : Country :=
  { code := "DE", name := "Germany"
    costOfLiving := { tier := .medium, monthlyAverage := 1000, currency := "EUR" }
    languageBarrier := 5, cultureShockRisk := 4
    visaProcessing :=
      { difficulty := .easy, averageProcessingDays := 30, successRate := 90
        requirements := [] }
    postStudyWork := { allowed := true, duration := some "18 months", restrictions := none }
    safetyRating := 9, scrapedAt := 0 }

def exProfile : StudentProfile :=
  { id := "p1", situation := .study_abroad, currentCountry := "Nigeria"
    targetCountry := none, educationStage := .masters, budgetLevel := .medium
    mainFear := .money, confidenceLevel := .medium, createdAt := 0 }

def exCatalog : Catalog :=
  { universities := [exUniGer, exUniUS, exUniFr, exUniGer2]
    scholarships := [exScholarship]
    countries := [exCountryGer] }

def exEmptyCatalog : Catalog :=
  { universities := [], scholarships := [], countries := [] }

def exLowVisaProfile : StudentProfile :=
  { exProfile with budgetLevel := .low, mainFear := .visa }

def exProfileEmptyTC : StudentProfile :=
  { exProfile with targetCountry := some "" }

def exHighBudgetProfile : StudentProfile :=
  { exProfile with budgetLevel := .high }

/-- Erase the clock-dependent millisecond dates from a timeline event. -/
def stripDate (e : TimelineEvent) : TimelineEvent := { e with date := 0 }

/-- Erase the clock-dependent timeline dates from a path. -/
def stripPath (p : Path) : Path := { p with timeline := p.timeline.map stripDate }

def exMiniCatalog : Catalog :=
  { universities := [exUniGer], scholarships := [], countries := [] }

def exScored : List ScoredUni :=
  [ScoredUni.mk exUniGer (calculateFitScore exProfile exUniGer),
   ScoredUni.mk exUniGer2 (calculateFitScore exProfile exUniGer2),
   ScoredUni.mk exUniFr (calculateFitScore exProfile exUniFr)]

def exPath : Path :=
  buildPath exCatalog exProfile exUniGer (calculateFitScore exProfile exUniGer) 0

/-- A student profile as it actually reaches the engine at runtime: the
API route casts untyped `request.json()` straight to `StudentProfile`
with no validation, so a required enum field can be absent.  Here
`mainFear` is optional (`none` = the JSON field was missing); the engine
reads it in exactly two places, both as `profile.mainFear === "visa"`,
which is `false` for `undefined`. -/
structure RawStudentProfile where
  id : String
  situation : SituationType
  currentCountry : String
  targetCountry : Option String
  educationStage : EducationStage
  budgetLevel : BudgetLevel
  mainFear : Option FearType
  confidenceLevel : ConfidenceLevel
  createdAt : Nat
  deriving DecidableEq, Repr

/-- Runtime behaviour of `filterEligibleUniversities` on a raw profile:
`undefined === "visa"` is `false`, so a missing `mainFear` simply
disables the visa constraint. -/
def rawFilterEligibleUniversities (universities : List University)
    (profile : RawStudentProfile) : List University :=
  universities.filter fun uni =>
    if truthy profile.targetCountry && profile.targetCountry != some uni.country then
      false
    else if profile.budgetLevel == .low && uni.tuition.tier == .high then
      false
    else if profile.mainFear == some .visa && uni.visaDifficulty == .hard then
      false
    else if profile.confidenceLevel == .low && decide (9 ≤ uni.workloadIntensity) then
      false
    else
      true

def rawCalculateTeachingFit (profile : RawStudentProfile) (uni : University) : ℤ :=
  if profile.confidenceLevel == .high && uni.teachingStyle == .research_focused then 90
  else if profile.confidenceLevel == .low && uni.teachingStyle == .lecture_heavy then 85
  else if uni.teachingStyle == .mixed then 80
  else 70

def rawCalculateWorkloadFit (profile : RawStudentProfile) (uni : University) : ℤ :=
  let maxWorkload := workloadConfidenceMap profile.confidenceLevel
  if (uni.workloadIntensity : ℤ) ≤ maxWorkload then
    100 - (maxWorkload - (uni.workloadIntensity : ℤ)) * 5
  else
    max 0 (100 - ((uni.workloadIntensity : ℤ) - maxWorkload) * 15)

def rawCalculateLanguageFit (profile : RawStudentProfile) (uni : University) : ℤ :=
  if uni.languageRequirements.primary == "English" then 95
  else if (match uni.languageRequirements.alternatives with
           | some alts => alts.contains "English"
           | none => false) then 80
  else 60

def rawCalculateCostFit (profile : RawStudentProfile) (uni : University) : ℤ :=
  budgetMap profile.budgetLevel uni.tuition.tier

/-- Runtime behaviour of `calculateVisaFit` on a raw profile: a missing
`mainFear` takes the lenient branch. -/
def rawCalculateVisaFit (profile : RawStudentProfile) (uni : University) : ℤ :=
  if profile.mainFear == some .visa then
    match uni.visaDifficulty with
    | .easy => 100 | .medium => 60 | .hard => 20
  else
    match uni.visaDifficulty with
    | .easy => 100 | .medium => 85 | .hard => 70

def rawCalculateFitScore (profile : RawStudentProfile) (uni : University) : FitScore :=
  let scores : FitBreakdown :=
    { teaching := rawCalculateTeachingFit profile uni
      workload := rawCalculateWorkloadFit profile uni
      language := rawCalculateLanguageFit profile uni
      cost := rawCalculateCostFit profile uni
      visa := rawCalculateVisaFit profile uni
      support := (uni.internationalStudentSupport : ℤ) * 10 }
  let overall :=
    (20 * scores.teaching + 15 * scores.workload + 15 * scores.language +
      25 * scores.cost + 15 * scores.visa + 10 * scores.support + 50) / 100
  { overall := overall, breakdown := scores }

def rawAssessFinancialRisk (countries : List Country) (profile : RawStudentProfile)
    (uni : University) : Risk :=
  let budgetMismatch :=
    (profile.budgetLevel == .low && uni.tuition.tier == .medium) ||
      (profile.budgetLevel == .medium && uni.tuition.tier == .high)
  let country := countries.find? fun c => c.name == uni.country
  let highCostOfLiving :=
    match country with
    | some c => c.costOfLiving.tier == .high
    | none => false
  { severity := if budgetMismatch || highCostOfLiving then .high else .low
    likelihood := if budgetMismatch then 70 else 30
    description :=
      if budgetMismatch then
        "Tuition (" ++ uni.tuition.currency ++ " " ++ toString uni.tuition.annualCost ++
          ") may exceed your " ++ profile.budgetLevel.str ++ " budget"
      else
        "Costs are manageable with " ++ profile.budgetLevel.str ++ " budget"
    mitigation :=
      ["Apply for scholarships",
       "Look for part-time work opportunities",
       "Consider student loans",
       "Budget carefully for living expenses"] }

def rawAssessAcademicRisk (profile : RawStudentProfile) (uni : University) : Risk :=
  let studentCapacity := academicConfidenceMap profile.confidenceLevel
  let overload := studentCapacity < uni.workloadIntensity
  { severity := if overload then .high else .low
    likelihood := if overload then 60 else 20
    description :=
      if overload then
        "Workload intensity (" ++ toString uni.workloadIntensity ++
          "/10) may be challenging for your " ++ profile.confidenceLevel.str ++
          " confidence level"
      else
        "Workload is manageable for your confidence level"
    mitigation :=
      ["Start with lighter course load",
       "Use university tutoring services",
       "Form study groups",
       "Manage time effectively"] }

def rawAssessVisaRisk (profile : RawStudentProfile) (uni : University) : Risk :=
  let difficulty := uni.visaDifficulty
  let severity : Severity :=
    match difficulty with
    | .easy => .low | .medium => .medium | .hard => .high
  let likelihood :=
    match difficulty with
    | .easy => 10 | .medium => 30 | .hard => 60
  { severity := severity
    likelihood := likelihood
    description := "Visa difficulty is " ++ difficulty.str ++ " for " ++ uni.country
    mitigation :=
      ["Start visa process early",
       "Prepare all documents thoroughly",
       "Seek visa consultation",
       "Have backup country options"] }

def rawAssessTimeRisk (profile : RawStudentProfile) (uni : University) : Risk :=
  { severity := .medium
    likelihood := 40
    description := "Potential delays in graduation or visa processing"
    mitigation :=
      ["Plan for buffer time",
       "Stay on top of deadlines",
       "Have contingency plans"] }

def rawAssessRisks (countries : List Country) (profile : RawStudentProfile)
    (uni : University) : RiskAssessment :=
  { financial := rawAssessFinancialRisk countries profile uni
    visa := rawAssessVisaRisk profile uni
    academic := rawAssessAcademicRisk profile uni
    time := rawAssessTimeRisk profile uni }

def rawGenerateExclusions (profile : RawStudentProfile) (uni : University) :
    List String :=
  (if 9 ≤ uni.workloadIntensity then
    ["you prefer a relaxed academic environment"] else []) ++
  (if uni.tuition.tier == .high then
    ["you have strict budget constraints"] else []) ++
  (if uni.languageRequirements.primary ≠ "English" &&
      !(match uni.languageRequirements.alternatives with
        | some alts => alts.contains "English"
        | none => false) then
    ["you" ++ apos ++ "re not comfortable learning in " ++
      uni.languageRequirements.primary] else []) ++
  (if uni.acceptanceRate < 10 then
    ["you need a safer acceptance option"] else [])

def rawGenerateTimeline (profile : RawStudentProfile) (uni : University)
    (now : Nat) : List TimelineEvent :=
  [{ id := "evt-1"
     date := now + 180 * 24 * 60 * 60 * 1000
     title := "Application Deadline"
     description := "Submit application to " ++ uni.name
     type := "deadline"
     importance := "high" },
   { id := "evt-2"
     date := now + 270 * 24 * 60 * 60 * 1000
     title := "Visa Application"
     description := "Apply for student visa"
     type := "decision"
     importance := "high" },
   { id := "evt-3"
     date := now + 365 * 24 * 60 * 60 * 1000
     title := "Program Starts"
     description := "Begin studies"
     type := "milestone"
     importance := "high" }]

def rawFindMatchingScholarships (scholarships : List Scholarship)
    (profile : RawStudentProfile) (uni : University) : List Scholarship :=
  (scholarships.filter fun sch =>
    if sch.country != uni.country then false
    else if !(sch.eligibility.educationStage.contains profile.educationStage) then false
    else if !sch.eligibility.countries.isEmpty &&
        !(sch.eligibility.countries.contains profile.currentCountry) &&
        !(sch.eligibility.countries.contains "All") then false
    else true).take 3

def rawBuildPath (catalog : Catalog) (profile : RawStudentProfile) (uni : University)
    (fitScore : FitScore) (now : Nat) : Path :=
  { id := "path-" ++ uni.id
    type := "university"
    name := "Study at " ++ uni.name
    description :=
      (if uni.ranking ≤ 50 then "Top-ranked" else "Quality") ++ " " ++
        uni.teachingStyle.str ++ " university in " ++ uni.city ++ ", " ++ uni.country
    fitScore := fitScore
    risks := rawAssessRisks catalog.countries profile uni
    notForYouIf := rawGenerateExclusions profile uni
    details := uni
    scholarships := rawFindMatchingScholarships catalog.scholarships profile uni
    timeline := rawGenerateTimeline profile uni now }

/-- Runtime behaviour of `generatePaths` on a raw profile: there is no
validation step anywhere in the pipeline. -/
def rawGeneratePaths (catalog : Catalog) (profile : RawStudentProfile) (now : Nat) :
    List Path :=
  let eligibleUniversities := rawFilterEligibleUniversities catalog.universities profile
  let scoredUniversities := eligibleUniversities.map fun uni =>
    ScoredUni.mk uni (rawCalculateFitScore profile uni)
  let sorted := scoredUniversities.insertionSort fun a b =>
    b.fitScore.overall ≤ a.fitScore.overall
  let selectedPaths := selectDiversePaths sorted 3
  selectedPaths.map fun item =>
    rawBuildPath catalog profile item.university item.fitScore now

def exRawNoFear : RawStudentProfile :=
  { id := "p1", situation := .study_abroad, currentCountry := "Nigeria"
    targetCountry := none, educationStage := .masters, budgetLevel := .medium
    mainFear := none, confidenceLevel := .medium, createdAt := 0 }

/-! Helper lemmas about the diversity selector. -/

theorem selectPass1_sublist (count : Nat) :
    ∀ (l : List (Nat × ScoredUni)) (selLen : Nat) (cs : List String),
      List.Sublist (selectPass1 count l selLen cs) l
  | [], _, _ => List.Sublist.refl []
  | item :: rest, selLen, cs => by
    rw [selectPass1]
    split
    · exact List.nil_sublist _
    · split
      · exact List.Sublist.cons₂ _ (selectPass1_sublist count rest _ _)
      · exact List.Sublist.cons _ (selectPass1_sublist count rest _ _)

theorem selectPass1_length (count : Nat) :
    ∀ (l : List (Nat × ScoredUni)) (selLen : Nat) (cs : List String),
      (selectPass1 count l selLen cs).length ≤ count - selLen
  | [], _, _ => by simp [selectPass1]
  | item :: rest, selLen, cs => by
    rw [selectPass1]
    split
    · simp
    · split
      · have h := selectPass1_length count rest (selLen + 1)
          (item.2.university.country :: cs)
        simp only [List.length_cons]
        omega
      · have h := selectPass1_length count rest selLen cs
        omega

theorem contains_eq_decide_mem {α : Type} [BEq α] [LawfulBEq α] (l : List α) (a : α) :
    l.contains a = decide (a ∈ l) := by
  simp [List.contains, List.elem_eq_mem]

/-- On a list with distinct indices, filtering to the indices of an
(in-order) sub-selection recovers exactly that selection. -/
theorem filter_fst_mem_of_sublist :
    ∀ {s l : List (Nat × ScoredUni)}, List.Sublist s l → (l.map Prod.fst).Nodup →
      l.filter (fun x => (s.map Prod.fst).contains x.1) = s := by
  intro s l hs
  induction hs with
  | slnil => intro _; rfl
  | @cons s' l' a hs ih =>
    intro hnd
    rw [List.map_cons, List.nodup_cons] at hnd
    have ha : a.1 ∉ l'.map Prod.fst := hnd.1
    have hsub : s'.map Prod.fst ⊆ l'.map Prod.fst := (hs.map Prod.fst).subset
    have hne : ((s'.map Prod.fst).contains a.1) = false := by
      rw [contains_eq_decide_mem, decide_eq_false_iff_not]
      exact fun hmem => ha (hsub hmem)
    simp only [List.filter_cons, hne]
    exact ih hnd.2
  | @cons₂ s' l' a hs ih =>
    intro hnd
    rw [List.map_cons, List.nodup_cons] at hnd
    have ha : a.1 ∉ l'.map Prod.fst := hnd.1
    have hmema : (((a :: s').map Prod.fst).contains a.1) = true := by
      rw [contains_eq_decide_mem, decide_eq_true_eq]
      simp
    simp only [List.filter_cons, hmema, if_pos]
    congr 1
    have hcongr : ∀ x ∈ l',
        (((a :: s').map Prod.fst).contains x.1) = ((s'.map Prod.fst).contains x.1) := by
      intro x hx
      have hxa : x.1 ≠ a.1 := fun h => ha (h ▸ List.mem_map_of_mem Prod.fst hx)
      rw [contains_eq_decide_mem, contains_eq_decide_mem]
      simp [hxa]
    rw [List.filter_congr hcongr]
    exact ih hnd.2

theorem length_filter_add_length_filter_not (p : α → Bool) :
    ∀ l : List α, (l.filter p).length + (l.filter fun a => !(p a)).length = l.length
  | [] => rfl
  | a :: l => by
    cases h : p a <;>
      simp [List.filter_cons, h, ← length_filter_add_length_filter_not p l] <;> omega

theorem selectDiversePaths_length (scored : List ScoredUni) (count : Nat) :
    (selectDiversePaths scored count).length = min count scored.length := by
  have hsub := selectPass1_sublist count scored.enum 0 []
  have hnd : (scored.enum.map Prod.fst).Nodup := by
    rw [List.enum_map_fst]; exact List.nodup_range _
  have hlen1 : (selectPass1 count scored.enum 0 []).length ≤ count := by
    have := selectPass1_length count scored.enum 0 []
    omega
  have hlen2 : (selectPass1 count scored.enum 0 []).length ≤ scored.length := by
    have := hsub.length_le
    simpa [List.enum_length] using this
  have hfe := filter_fst_mem_of_sublist hsub hnd
  have hcompl := length_filter_add_length_filter_not
    (fun x => ((selectPass1 count scored.enum 0 []).map Prod.fst).contains x.1) scored.enum
  rw [hfe] at hcompl
  simp only [selectDiversePaths, List.length_map, List.length_append, List.length_take]
  rw [List.enum_length] at hcompl
  omega

theorem selectDiversePaths_subset {scored : List ScoredUni} {count : Nat} :
    ∀ x ∈ selectDiversePaths scored count, x ∈ scored := by
  intro x hx
  simp only [selectDiversePaths, List.mem_map, List.mem_append] at hx
  obtain ⟨pr, hpr, rfl⟩ := hx
  have hixs : pr ∈ scored.enum := by
    rcases hpr with h | h
    · exact (selectPass1_sublist count scored.enum 0 []).subset h
    · exact List.mem_of_mem_filter (List.mem_of_mem_take h)
  have := List.mem_map_of_mem Prod.snd hixs
  rwa [List.enum_map_snd] at this

/-- Every generated path is the assembly of an eligible university with
its fit score. -/
theorem mem_generatePaths {catalog : Catalog} {profile : StudentProfile} {now : Nat}
    {path : Path} (h : path ∈ generatePaths catalog profile now) :
    ∃ uni ∈ filterEligibleUniversities catalog.universities profile,
      path = buildPath catalog profile uni (calculateFitScore profile uni) now := by
  simp only [generatePaths, List.mem_map] at h
  obtain ⟨item, hitem, rfl⟩ := h
  have hsorted := selectDiversePaths_subset item hitem
  have hperm := List.perm_insertionSort
    (fun a b : ScoredUni => b.fitScore.overall ≤ a.fitScore.overall)
    ((filterEligibleUniversities catalog.universities profile).map fun uni =>
      ScoredUni.mk uni (calculateFitScore profile uni))
  have hmem := hperm.subset hsorted
  simp only [List.mem_map] at hmem
  obtain ⟨uni, huni, rfl⟩ := hmem
  exact ⟨uni, huni, rfl⟩

/-- Membership characterization of the eligibility filter.  The target
country constraint only applies when `targetCountry` is present and
non-empty, because the source guards it with JS truthiness
(`profile.targetCountry && ...`). -/
theorem mem_filterEligible {univs : List University} {profile : StudentProfile}
    {uni : University} :
    uni ∈ filterEligibleUniversities univs profile ↔
      uni ∈ univs ∧
        (∀ tc, profile.targetCountry = some tc → tc ≠ "" → uni.country = tc) ∧
        ¬(profile.budgetLevel = .low ∧ uni.tuition.tier = .high) ∧
        ¬(profile.mainFear = .visa ∧ uni.visaDifficulty = .hard) ∧
        ¬(profile.confidenceLevel = .low ∧ 9 ≤ uni.workloadIntensity) := by
  rw [filterEligibleUniversities, List.mem_filter]
  refine and_congr_right fun _ => ?_
  rcases htc : profile.targetCountry with _ | tc
  · simp only [htc, truthy, Bool.false_and, Bool.false_eq_true, if_false]
    split_ifs with h2 h3 h4 <;>
      simp_all [Bool.and_eq_true, beq_iff_eq, decide_eq_true_eq]
  · simp only [htc, truthy]
    split_ifs with h1 h2 h3 h4 <;>
      simp_all [Bool.and_eq_true, beq_iff_eq, bne_iff_ne, decide_eq_true_eq,
        Bool.not_eq_true, Bool.and_eq_false_iff, bne_eq_false_iff_eq,
        decide_eq_false_iff_not]
    · intro hc _ _
      exact absurd hc.symm h1.2
    · intro h
      exact (h1 h).symm

theorem budget_msg_ne_lang_msg (lang : String) :
    "you have strict budget constraints" ≠
      "you" ++ apos ++ "re not comfortable learning in " ++ lang := by
  intro h
  have hlen := congrArg String.length h
  rw [String.length_append, String.length_append, String.length_append] at hlen
  have h1 : ("you have strict budget constraints").length = 34 := by decide
  have h2 : ("you").length = 3 := by decide
  have h3 : apos.length = 1 := by decide
  have h4 : ("re not comfortable learning in ").length = 31 := by decide
  omega

/-- C7: for every profile and catalog, `generatePaths` returns exactly
`min 3 (number of eligible candidates)` paths — fewer than 3 survivors
means that many paths, and an empty catalog yields zero paths (the
embedding is a total function, so there is no exception to model). -/
theorem claim7_path_count (catalog : Catalog) (profile : StudentProfile) (now : Nat) :
    (generatePaths catalog profile now).length =
      min 3 (filterEligibleUniversities catalog.universities profile).length ∧
    (catalog.universities = [] → generatePaths catalog profile now = []) := by
  constructor
  · simp only [generatePaths, List.length_map]
    rw [selectDiversePaths_length, List.length_insertionSort, List.length_map]
  · intro h
    simp [generatePaths, h, filterEligibleUniversities, selectDiversePaths,
      selectPass1, List.insertionSort]

theorem claim7_witness :
    generatePaths exEmptyCatalog exProfile 0 = [] ∧
    (generatePaths exCatalog exProfile 0).length =
      min 3 (filterEligibleUniversities exCatalog.universities exProfile).length :=
  ⟨(claim7_path_count exEmptyCatalog exProfile 0).2 rfl,
    (claim7_path_count exCatalog exProfile 0).1⟩

/-- C2 (amended: "targetCountry is set" must be read as "set to a
non-empty string", because the source guards the country constraint with
JS truthiness, under which the empty string disables it): the
eligibility filter returns exactly the subset of the catalog satisfying
all hard constraints, and consequently low-budget profiles never see a
high-tuition candidate and visa-fearing profiles never see a hard-visa
candidate among the generated paths. -/
theorem claim2_eligibility_filter (catalog : Catalog) (profile : StudentProfile)
    (now : Nat) (uni : University) :
    (uni ∈ filterEligibleUniversities catalog.universities profile ↔
      uni ∈ catalog.universities ∧
        (∀ tc, profile.targetCountry = some tc → tc ≠ "" → uni.country = tc) ∧
        ¬(profile.budgetLevel = .low ∧ uni.tuition.tier = .high) ∧
        ¬(profile.mainFear = .visa ∧ uni.visaDifficulty = .hard) ∧
        ¬(profile.confidenceLevel = .low ∧ 9 ≤ uni.workloadIntensity)) ∧
    (profile.budgetLevel = .low →
      ∀ path ∈ generatePaths catalog profile now, path.details.tuition.tier ≠ .high) ∧
    (profile.mainFear = .visa →
      ∀ path ∈ generatePaths catalog profile now, path.details.visaDifficulty ≠ .hard) := by
  refine ⟨mem_filterEligible, ?_, ?_⟩
  · intro hb path hp hcontra
    obtain ⟨u, hu, rfl⟩ := mem_generatePaths hp
    exact (mem_filterEligible.mp hu).2.2.1 ⟨hb, hcontra⟩
  · intro hf path hp hcontra
    obtain ⟨u, hu, rfl⟩ := mem_generatePaths hp
    exact (mem_filterEligible.mp hu).2.2.2.1 ⟨hf, hcontra⟩

theorem claim2_witness :
    exLowVisaProfile.budgetLevel = BudgetLevel.low ∧
    exLowVisaProfile.mainFear = FearType.visa ∧
    (∀ path ∈ generatePaths exCatalog exLowVisaProfile 0,
      path.details.tuition.tier ≠ TuitionTier.high) ∧
    (∀ path ∈ generatePaths exCatalog exLowVisaProfile 0,
      path.details.visaDifficulty ≠ VisaDifficulty.hard) :=
  ⟨rfl, rfl,
    (claim2_eligibility_filter exCatalog exLowVisaProfile 0 exUniGer).2.1 rfl,
    (claim2_eligibility_filter exCatalog exLowVisaProfile 0 exUniGer).2.2 rfl⟩

/-- C2 counterexample: with `targetCountry` set to the empty string the
filter keeps a university of a different country, because the source's
truthiness guard (`profile.targetCountry && ...`) treats the empty
string as "no target country". -/
theorem claim2_counterexample :
    exProfileEmptyTC.targetCountry = some "" ∧
    exUniGer ∈ filterEligibleUniversities [exUniGer] exProfileEmptyTC ∧
    exUniGer.country ≠ "" := by
  refine ⟨rfl, ?_, by decide⟩
  decide

/-- C10: for every low-budget profile, no generated path carries the
strict-budget disqualifier, because the eligibility filter removed every
high-tuition candidate before `generateExclusions` ran. -/
theorem claim10_no_budget_exclusion (catalog : Catalog) (profile : StudentProfile)
    (now : Nat) (hb : profile.budgetLevel = .low) :
    ∀ path ∈ generatePaths catalog profile now,
      "you have strict budget constraints" ∉ path.notForYouIf := by
  intro path hp hmem
  obtain ⟨u, hu, rfl⟩ := mem_generatePaths hp
  have htier : u.tuition.tier ≠ .high :=
    fun hh => (mem_filterEligible.mp hu).2.2.1 ⟨hb, hh⟩
  have hmem' : "you have strict budget constraints" ∈ generateExclusions profile u := hmem
  simp only [generateExclusions, List.mem_append] at hmem'
  rcases hmem' with ((hA | hB) | hC) | hD
  · split_ifs at hA <;> simp_all
  · split_ifs at hB with hcond <;> simp_all [beq_iff_eq]
  · split_ifs at hC <;> simp_all
    exact budget_msg_ne_lang_msg u.languageRequirements.primary hC
  · split_ifs at hD <;> simp_all

theorem claim10_witness :
    exLowVisaProfile.budgetLevel = BudgetLevel.low ∧
    ∀ path ∈ generatePaths exCatalog exLowVisaProfile 0,
      "you have strict budget constraints" ∉ path.notForYouIf :=
  ⟨rfl, claim10_no_budget_exclusion exCatalog exLowVisaProfile 0 rfl⟩

theorem calculateTeachingFit_bounds (profile : StudentProfile) (uni : University) :
    0 ≤ calculateTeachingFit profile uni ∧ calculateTeachingFit profile uni ≤ 100 := by
  unfold calculateTeachingFit
  split_ifs <;> norm_num

theorem calculateWorkloadFit_bounds (profile : StudentProfile) (uni : University)
    (hw : uni.workloadIntensity ≤ 10) :
    0 ≤ calculateWorkloadFit profile uni ∧ calculateWorkloadFit profile uni ≤ 100 := by
  unfold calculateWorkloadFit
  cases profile.confidenceLevel <;>
    simp only [workloadConfidenceMap] <;>
    split_ifs with h <;>
    constructor <;>
    omega

theorem calculateLanguageFit_bounds (profile : StudentProfile) (uni : University) :
    0 ≤ calculateLanguageFit profile uni ∧ calculateLanguageFit profile uni ≤ 100 := by
  unfold calculateLanguageFit
  split_ifs <;> norm_num

theorem calculateCostFit_bounds (profile : StudentProfile) (uni : University) :
    0 ≤ calculateCostFit profile uni ∧ calculateCostFit profile uni ≤ 100 := by
  unfold calculateCostFit
  cases profile.budgetLevel <;> cases uni.tuition.tier <;> decide

theorem calculateVisaFit_bounds (profile : StudentProfile) (uni : University) :
    0 ≤ calculateVisaFit profile uni ∧ calculateVisaFit profile uni ≤ 100 := by
  unfold calculateVisaFit
  split_ifs <;> cases uni.visaDifficulty <;> decide

theorem int_weighted_round (t w l c v s : ℤ) :
    (20*t + 15*w + 15*l + 25*c + 15*v + 10*s + 50) / 100 =
      jsRound ((t : ℚ) * 0.2 + (w : ℚ) * 0.15 + (l : ℚ) * 0.15 + (c : ℚ) * 0.25 +
        (v : ℚ) * 0.15 + (s : ℚ) * 0.1) := by
  unfold jsRound
  have hq : (t : ℚ) * 0.2 + (w : ℚ) * 0.15 + (l : ℚ) * 0.15 + (c : ℚ) * 0.25 +
      (v : ℚ) * 0.15 + (s : ℚ) * 0.1 + 1/2 =
      ((20*t + 15*w + 15*l + 25*c + 15*v + 10*s + 50 : ℤ) : ℚ) / ((100 : ℕ) : ℚ) := by
    push_cast
    ring
  rw [hq, Rat.floor_intCast_div_natCast]
  norm_num

/-- C4: for workload intensity and support scores in [1,10], every fit
score has all six breakdown dimensions in [0,100], an overall in
[0,100], and the overall equals `Math.round` of the weighted sum with
the fixed weights 0.2/0.15/0.15/0.25/0.15/0.1, which sum to 1. -/
theorem claim4_fit_score (profile : StudentProfile) (uni : University)
    (hw : 1 ≤ uni.workloadIntensity ∧ uni.workloadIntensity ≤ 10)
    (hs : 1 ≤ uni.internationalStudentSupport ∧ uni.internationalStudentSupport ≤ 10) :
    (0 ≤ (calculateFitScore profile uni).overall ∧
      (calculateFitScore profile uni).overall ≤ 100) ∧
    (0 ≤ (calculateFitScore profile uni).breakdown.teaching ∧
      (calculateFitScore profile uni).breakdown.teaching ≤ 100) ∧
    (0 ≤ (calculateFitScore profile uni).breakdown.workload ∧
      (calculateFitScore profile uni).breakdown.workload ≤ 100) ∧
    (0 ≤ (calculateFitScore profile uni).breakdown.language ∧
      (calculateFitScore profile uni).breakdown.language ≤ 100) ∧
    (0 ≤ (calculateFitScore profile uni).breakdown.cost ∧
      (calculateFitScore profile uni).breakdown.cost ≤ 100) ∧
    (0 ≤ (calculateFitScore profile uni).breakdown.visa ∧
      (calculateFitScore profile uni).breakdown.visa ≤ 100) ∧
    (0 ≤ (calculateFitScore profile uni).breakdown.support ∧
      (calculateFitScore profile uni).breakdown.support ≤ 100) ∧
    (calculateFitScore profile uni).overall =
      jsRound (((calculateFitScore profile uni).breakdown.teaching : ℚ) * 0.2 +
        ((calculateFitScore profile uni).breakdown.workload : ℚ) * 0.15 +
        ((calculateFitScore profile uni).breakdown.language : ℚ) * 0.15 +
        ((calculateFitScore profile uni).breakdown.cost : ℚ) * 0.25 +
        ((calculateFitScore profile uni).breakdown.visa : ℚ) * 0.15 +
        ((calculateFitScore profile uni).breakdown.support : ℚ) * 0.1) ∧
    ((0.2 : ℚ) + 0.15 + 0.15 + 0.25 + 0.15 + 0.1 = 1) := by
  have ht := calculateTeachingFit_bounds profile uni
  have hwl := calculateWorkloadFit_bounds profile uni hw.2
  have hl := calculateLanguageFit_bounds profile uni
  have hc := calculateCostFit_bounds profile uni
  have hv := calculateVisaFit_bounds profile uni
  have hsup : 0 ≤ (uni.internationalStudentSupport : ℤ) * 10 ∧
      (uni.internationalStudentSupport : ℤ) * 10 ≤ 100 := by
    constructor <;> omega
  have hbt : (calculateFitScore profile uni).breakdown.teaching =
    calculateTeachingFit profile uni := rfl
  have hbw : (calculateFitScore profile uni).breakdown.workload =
    calculateWorkloadFit profile uni := rfl
  have hbl : (calculateFitScore profile uni).breakdown.language =
    calculateLanguageFit profile uni := rfl
  have hbc : (calculateFitScore profile uni).breakdown.cost =
    calculateCostFit profile uni := rfl
  have hbv : (calculateFitScore profile uni).breakdown.visa =
    calculateVisaFit profile uni := rfl
  have hbs : (calculateFitScore profile uni).breakdown.support =
    (uni.internationalStudentSupport : ℤ) * 10 := rfl
  have hov : (calculateFitScore profile uni).overall =
      (20 * calculateTeachingFit profile uni + 15 * calculateWorkloadFit profile uni +
        15 * calculateLanguageFit profile uni + 25 * calculateCostFit profile uni +
        15 * calculateVisaFit profile uni +
        10 * ((uni.internationalStudentSupport : ℤ) * 10) + 50) / 100 := rfl
  refine ⟨?_, ?_, ?_, ?_, ?_, ?_, ?_, ?_, by norm_num⟩
  · rw [hov]
    obtain ⟨ht1, ht2⟩ := ht
    obtain ⟨hw1, hw2⟩ := hwl
    obtain ⟨hl1, hl2⟩ := hl
    obtain ⟨hc1, hc2⟩ := hc
    obtain ⟨hv1, hv2⟩ := hv
    obtain ⟨hs1, hs2⟩ := hsup
    constructor <;> omega
  · rw [hbt]; exact ht
  · rw [hbw]; exact hwl
  · rw [hbl]; exact hl
  · rw [hbc]; exact hc
  · rw [hbv]; exact hv
  · rw [hbs]; exact hsup
  · rw [hov, hbt, hbw, hbl, hbc, hbv, hbs]
    exact int_weighted_round _ _ _ _ _ _

theorem claim4_witness :
    (1 ≤ exUniGer.workloadIntensity ∧ exUniGer.workloadIntensity ≤ 10) ∧
    (1 ≤ exUniGer.internationalStudentSupport ∧
      exUniGer.internationalStudentSupport ≤ 10) ∧
    (0 ≤ (calculateFitScore exProfile exUniGer).overall ∧
      (calculateFitScore exProfile exUniGer).overall ≤ 100) ∧
    (calculateFitScore exProfile exUniGer).overall =
      jsRound (((calculateFitScore exProfile exUniGer).breakdown.teaching : ℚ) * 0.2 +
        ((calculateFitScore exProfile exUniGer).breakdown.workload : ℚ) * 0.15 +
        ((calculateFitScore exProfile exUniGer).breakdown.language : ℚ) * 0.15 +
        ((calculateFitScore exProfile exUniGer).breakdown.cost : ℚ) * 0.25 +
        ((calculateFitScore exProfile exUniGer).breakdown.visa : ℚ) * 0.15 +
        ((calculateFitScore exProfile exUniGer).breakdown.support : ℚ) * 0.1) :=
  ⟨⟨by decide, by decide⟩, ⟨by decide, by decide⟩,
    (claim4_fit_score exProfile exUniGer ⟨by decide, by decide⟩
      ⟨by decide, by decide⟩).1,
    (claim4_fit_score exProfile exUniGer ⟨by decide, by decide⟩
      ⟨by decide, by decide⟩).2.2.2.2.2.2.2.1⟩

/-- C5 counterexample: the cost-fit lookup table is keyed by 3 budget
levels and 4 tuition tiers (the source's `budgetMap` contains a `free`
column), so it has 12 cells, not 9. -/
theorem claim5_counterexample :
    Fintype.card (BudgetLevel × TuitionTier) = 12 ∧
    ¬(Fintype.card (BudgetLevel × TuitionTier) = 9) := by
  constructor <;> decide

/-- C5 (amended: 12 cells, 3 budget levels × 4 tuition tiers including
"free"): the cost fit is the fixed total lookup table `budgetMap`; low
budget against high tuition yields 10, and a high budget yields at
least 85 against every tuition tier. -/
theorem claim5_cost_table (profile : StudentProfile) (uni : University) :
    Fintype.card (BudgetLevel × TuitionTier) = 12 ∧
    calculateCostFit profile uni = budgetMap profile.budgetLevel uni.tuition.tier ∧
    (profile.budgetLevel = .low → uni.tuition.tier = .high →
      calculateCostFit profile uni = 10) ∧
    (profile.budgetLevel = .high → 85 ≤ calculateCostFit profile uni) := by
  refine ⟨by decide, rfl, ?_, ?_⟩
  · intro hb ht
    unfold calculateCostFit
    rw [hb, ht]
    decide
  · intro hb
    unfold calculateCostFit
    rw [hb]
    cases uni.tuition.tier <;> decide

theorem claim5_witness :
    exLowVisaProfile.budgetLevel = BudgetLevel.low ∧
    exUniUS.tuition.tier = TuitionTier.high ∧
    calculateCostFit exLowVisaProfile exUniUS = 10 ∧
    exHighBudgetProfile.budgetLevel = BudgetLevel.high ∧
    85 ≤ calculateCostFit exHighBudgetProfile exUniUS :=
  ⟨rfl, rfl, (claim5_cost_table exLowVisaProfile exUniUS).2.2.1 rfl rfl,
    rfl, (claim5_cost_table exHighBudgetProfile exUniUS).2.2.2 rfl⟩

/-- C8: financial-risk severity is "high" exactly when the
budget-tuition mismatch holds or the university's country record has a
high cost-of-living tier; likelihood is 70 under the mismatch and 30
otherwise; severity is never "medium"; and a missing country record
falls back to the non-high-cost-of-living branch (no exception is
possible: the lookup is a total `find?`). -/
theorem claim8_financial_risk (countries : List Country) (profile : StudentProfile)
    (uni : University) :
    ((assessFinancialRisk countries profile uni).severity = .high ↔
      ((profile.budgetLevel = .low ∧ uni.tuition.tier = .medium) ∨
        (profile.budgetLevel = .medium ∧ uni.tuition.tier = .high) ∨
        (∃ c, countries.find? (fun c => c.name == uni.country) = some c ∧
          c.costOfLiving.tier = .high))) ∧
    ((assessFinancialRisk countries profile uni).likelihood =
      if (profile.budgetLevel = .low ∧ uni.tuition.tier = .medium) ∨
          (profile.budgetLevel = .medium ∧ uni.tuition.tier = .high) then 70 else 30) ∧
    ((assessFinancialRisk countries profile uni).severity = .high ∨
      (assessFinancialRisk countries profile uni).severity = .low) ∧
    (countries.find? (fun c => c.name == uni.country) = none →
      ((assessFinancialRisk countries profile uni).severity =
        if (profile.budgetLevel = .low ∧ uni.tuition.tier = .medium) ∨
            (profile.budgetLevel = .medium ∧ uni.tuition.tier = .high)
        then Severity.high else Severity.low)) := by
  unfold assessFinancialRisk
  rcases hfind : countries.find? (fun c => c.name == uni.country) with _ | c <;>
    simp only [hfind] <;>
    split_ifs <;>
    simp_all [Bool.or_eq_true, Bool.and_eq_true, beq_iff_eq] <;>
    tauto

theorem claim8_witness :
    ((assessFinancialRisk exCatalog.countries exProfile exUniUS).severity = .high ↔
      ((exProfile.budgetLevel = .low ∧ exUniUS.tuition.tier = .medium) ∨
        (exProfile.budgetLevel = .medium ∧ exUniUS.tuition.tier = .high) ∨
        (∃ c, exCatalog.countries.find? (fun c => c.name == exUniUS.country) = some c ∧
          c.costOfLiving.tier = .high))) ∧
    ((assessFinancialRisk exCatalog.countries exProfile exUniUS).severity =
      if (exProfile.budgetLevel = .low ∧ exUniUS.tuition.tier = .medium) ∨
          (exProfile.budgetLevel = .medium ∧ exUniUS.tuition.tier = .high)
      then Severity.high else Severity.low) :=
  ⟨(claim8_financial_risk exCatalog.countries exProfile exUniUS).1,
    (claim8_financial_risk exCatalog.countries exProfile exUniUS).2.2.2 (by decide)⟩

/-- C1 counterexample: `generateTimeline` reads the current clock
(`new Date()`), so the same (profile, catalog) pair run at two different
times produces different output — the timeline dates differ. -/
theorem claim1_counterexample :
    generatePaths exMiniCatalog exProfile 0 ≠ generatePaths exMiniCatalog exProfile 1 := by
  decide

theorem stripPath_buildPath (catalog : Catalog) (profile : StudentProfile)
    (uni : University) (fitScore : FitScore) (t₁ t₂ : Nat) :
    stripPath (buildPath catalog profile uni fitScore t₁) =
      stripPath (buildPath catalog profile uni fitScore t₂) := by
  simp [stripPath, buildPath, generateTimeline, stripDate]

/-- C1 (amended): `generatePaths` is a pure function of (profile,
catalog, clock reading); runs at different clock readings agree on
everything except the timeline dates.  In particular two runs with the
same clock reading are byte-identical. -/
theorem claim1_determinism_modulo_time (catalog : Catalog) (profile : StudentProfile)
    (t₁ t₂ : Nat) :
    (generatePaths catalog profile t₁).map stripPath =
      (generatePaths catalog profile t₂).map stripPath := by
  simp only [generatePaths, List.map_map]
  exact List.map_congr_left fun item _ =>
    stripPath_buildPath catalog profile item.university item.fitScore t₁ t₂

/-- The scholarship predicate of `findMatchingScholarships`, written as a
positive conjunction; equal to the source's early-return chain. -/
theorem findMatchingScholarships_eq (scholarships : List Scholarship)
    (profile : StudentProfile) (uni : University) :
    findMatchingScholarships scholarships profile uni =
      (scholarships.filter fun sch =>
        sch.country == uni.country &&
        sch.eligibility.educationStage.contains profile.educationStage &&
        (sch.eligibility.countries.isEmpty ||
          sch.eligibility.countries.contains profile.currentCountry ||
          sch.eligibility.countries.contains "All")).take 3 := by
  unfold findMatchingScholarships
  congr 1
  apply List.filter_congr
  intro sch _
  cases h1 : sch.country == uni.country <;>
    cases h2 : sch.eligibility.educationStage.contains profile.educationStage <;>
    cases h3 : sch.eligibility.countries.isEmpty <;>
    cases h4 : sch.eligibility.countries.contains profile.currentCountry <;>
    cases h5 : sch.eligibility.countries.contains "All" <;>
    simp [h1, h2, h3, h4, h5, bne]

/-- C9: for every generated path, the attached scholarships are exactly
the first (at most) 3 catalog scholarships, in catalog order, whose
country equals the selected university's country, whose eligible-stage
set contains the profile's education stage, and whose eligible-country
list is empty or contains the profile's current country or the "All"
wildcard. -/
theorem claim9_scholarship_matching (catalog : Catalog) (profile : StudentProfile)
    (now : Nat) (path : Path) (hp : path ∈ generatePaths catalog profile now) :
    path.scholarships =
      (catalog.scholarships.filter fun sch =>
        sch.country == path.details.country &&
        sch.eligibility.educationStage.contains profile.educationStage &&
        (sch.eligibility.countries.isEmpty ||
          sch.eligibility.countries.contains profile.currentCountry ||
          sch.eligibility.countries.contains "All")).take 3 ∧
    path.scholarships.length ≤ 3 ∧
    List.Sublist path.scholarships catalog.scholarships ∧
    ∀ s ∈ path.scholarships,
      s.country = path.details.country ∧
      profile.educationStage ∈ s.eligibility.educationStage ∧
      (s.eligibility.countries = [] ∨ profile.currentCountry ∈ s.eligibility.countries ∨
        "All" ∈ s.eligibility.countries) := by
  obtain ⟨u, hu, rfl⟩ := mem_generatePaths hp
  have hdet : (buildPath catalog profile u (calculateFitScore profile u) now).details = u :=
    rfl
  have hsch : (buildPath catalog profile u (calculateFitScore profile u) now).scholarships =
      findMatchingScholarships catalog.scholarships profile u := rfl
  rw [hdet, hsch, findMatchingScholarships_eq]
  refine ⟨rfl, ?_, ?_, ?_⟩
  · rw [List.length_take]
    exact Nat.min_le_left _ _
  · exact (List.take_sublist _ _).trans (List.filter_sublist _)
  · intro s hs
    have hmemf := List.mem_of_mem_take hs
    have hpred := (List.mem_filter.mp hmemf).2
    simp only [Bool.and_eq_true, Bool.or_eq_true, beq_iff_eq,
      contains_eq_decide_mem, decide_eq_true_eq, List.isEmpty_iff] at hpred
    exact ⟨hpred.1.1, hpred.1.2, hpred.2.elim (fun h => h.elim Or.inl (Or.inr ∘ Or.inl))
      (Or.inr ∘ Or.inr)⟩

/-- Once two entries are selected, the first loop of the selector picks
as its next entry the first candidate whose country is new. -/
theorem selectPass1_head_new_country (count : Nat) :
    ∀ (l : List (Nat × ScoredUni)) (selLen : Nat) (cs : List String),
      2 ≤ selLen → selLen < count →
      (∃ x ∈ l, x.2.university.country ∉ cs) →
      ∃ y l', selectPass1 count l selLen cs = y :: l' ∧ y.2.university.country ∉ cs
  | [], selLen, cs => by
    intro _ _ hex
    simp at hex
  | item :: rest, selLen, cs => by
    intro h2 hlt hex
    rw [selectPass1, if_neg (Nat.not_le.mpr hlt)]
    by_cases hc : item.2.university.country ∈ cs
    · rw [if_neg]
      · refine selectPass1_head_new_country count rest selLen cs h2 hlt ?_
        rcases hex with ⟨x, hx, hxc⟩
        rcases List.mem_cons.mp hx with rfl | hx'
        · exact absurd hc hxc
        · exact ⟨x, hx', hxc⟩
      · intro hcond
        rw [contains_eq_decide_mem] at hcond
        simp [hc] at hcond
        omega
    · rw [if_pos]
      · exact ⟨item, _, rfl, hc⟩
      · rw [contains_eq_decide_mem]
        simp [hc]

/-- C6: on a score-sorted candidate list of length at least 3 spanning at
least two countries, the diversity selector with count 3 returns exactly
3 entries, its first two selections are the two top entries of the
sorted list, and the three selections never all share one country. -/
theorem claim6_diversity (scored : List ScoredUni)
    (hsorted : List.Pairwise
      (fun a b => b.fitScore.overall ≤ a.fitScore.overall) scored)
    (hlen : 3 ≤ scored.length)
    (hdiv : ∃ x ∈ scored, ∃ y ∈ scored,
      x.university.country ≠ y.university.country) :
    (selectDiversePaths scored 3).length = 3 ∧
    (selectDiversePaths scored 3).take 2 = scored.take 2 ∧
    ¬(∀ x ∈ selectDiversePaths scored 3, ∀ y ∈ selectDiversePaths scored 3,
        x.university.country = y.university.country) := by
  rcases scored with _ | ⟨a, rest1⟩
  · simp at hlen
  rcases rest1 with _ | ⟨b, rest⟩
  · simp at hlen
  have hlen3 : (selectDiversePaths (a :: b :: rest) 3).length = 3 := by
    rw [selectDiversePaths_length]
    simp only [List.length_cons] at hlen ⊢
    omega
  have henum : (a :: b :: rest).enum = (0, a) :: (1, b) :: rest.enumFrom 2 := rfl
  have hpass : selectPass1 3 ((a :: b :: rest).enum) 0 [] =
      (0, a) :: (1, b) :: selectPass1 3 (rest.enumFrom 2) 2
        [b.university.country, a.university.country] := by
    rw [henum, selectPass1, if_neg (by omega), if_pos (by simp),
      selectPass1, if_neg (by omega), if_pos (by simp)]
  have htake : (selectDiversePaths (a :: b :: rest) 3).take 2 = [a, b] := by
    simp only [selectDiversePaths, hpass, List.cons_append, List.map_cons]
    rfl
  refine ⟨hlen3, htake, ?_⟩
  intro hall
  have hamem : a ∈ selectDiversePaths (a :: b :: rest) 3 :=
    List.mem_of_mem_take (htake ▸ (by simp : a ∈ ([a, b] : List ScoredUni)))
  have hbmem : b ∈ selectDiversePaths (a :: b :: rest) 3 :=
    List.mem_of_mem_take (htake ▸ (by simp : b ∈ ([a, b] : List ScoredUni)))
  by_cases hab : a.university.country = b.university.country
  · -- the two top entries share a country, so some entry of `rest` has a
    -- different country, and the first loop picks the first such entry third
    have hw : ∃ w ∈ rest, w.university.country ≠ a.university.country := by
      by_contra hno
      push_neg at hno
      have hallc : ∀ x ∈ a :: b :: rest,
          x.university.country = a.university.country := by
        intro x hx
        rcases List.mem_cons.mp hx with rfl | hx'
        · rfl
        · rcases List.mem_cons.mp hx' with rfl | hx''
          · exact hab.symm
          · exact hno x hx''
      rcases hdiv with ⟨x, hx, y, hy, hxy⟩
      exact hxy ((hallc x hx).trans (hallc y hy).symm)
    rcases hw with ⟨w, hwrest, hwc⟩
    have hwsnd : w ∈ (rest.enumFrom 2).map Prod.snd := by
      rw [List.enumFrom_map_snd]
      exact hwrest
    rcases List.mem_map.mp hwsnd with ⟨pr, hpr, hpreq⟩
    have hex : ∃ x ∈ rest.enumFrom 2,
        x.2.university.country ∉ [b.university.country, a.university.country] := by
      refine ⟨pr, hpr, ?_⟩
      rw [hpreq]
      intro hmem
      rcases List.mem_cons.mp hmem with h | hmem'
      · exact hwc (h.trans hab.symm)
      · rcases List.mem_cons.mp hmem' with h | hmem''
        · exact hwc h
        · simp at hmem''
    obtain ⟨y, l', hy, hyc⟩ := selectPass1_head_new_country 3 (rest.enumFrom 2) 2
      [b.university.country, a.university.country] (by omega) (by omega) hex
    have hymem : y.2 ∈ selectDiversePaths (a :: b :: rest) 3 := by
      simp only [selectDiversePaths, hpass, hy]
      exact List.mem_map_of_mem Prod.snd (List.mem_append_left _ (by simp))
    have hcy := hall y.2 hymem a hamem
    exact hyc (by simp [hcy])
  · exact hab (hall a hamem b hbmem)

theorem claim6_witness :
    (selectDiversePaths exScored 3).length = 3 ∧
    (selectDiversePaths exScored 3).take 2 = exScored.take 2 ∧
    ¬(∀ x ∈ selectDiversePaths exScored 3, ∀ y ∈ selectDiversePaths exScored 3,
        x.university.country = y.university.country) :=
  claim6_diversity exScored (by decide) (by decide) (by decide)

theorem claim9_witness :
    exPath ∈ generatePaths exCatalog exProfile 0 ∧
    exPath.scholarships =
      (exCatalog.scholarships.filter fun sch =>
        sch.country == exPath.details.country &&
        sch.eligibility.educationStage.contains exProfile.educationStage &&
        (sch.eligibility.countries.isEmpty ||
          sch.eligibility.countries.contains exProfile.currentCountry ||
          sch.eligibility.countries.contains "All")).take 3 ∧
    exPath.scholarships.length ≤ 3 ∧
    List.Sublist exPath.scholarships exCatalog.scholarships :=
  ⟨by decide,
    (claim9_scholarship_matching exCatalog exProfile 0 exPath (by decide)).1,
    (claim9_scholarship_matching exCatalog exProfile 0 exPath (by decide)).2.1,
    (claim9_scholarship_matching exCatalog exProfile 0 exPath (by decide)).2.2.1⟩

/-- C3 (the code contradicts this claim): the engine performs no profile
validation at all.  A profile whose required `mainFear` enum field is
missing is not rejected before filtering and no error value is reported;
the engine filters, scores and assembles paths exactly as for a profile
whose fear is any non-visa value. -/
theorem claim3_missing_fear_not_rejected :
    exRawNoFear.mainFear = none ∧
    rawGeneratePaths exMiniCatalog exRawNoFear 0 =
      generatePaths exMiniCatalog exProfile 0 ∧
    (rawGeneratePaths exMiniCatalog exRawNoFear 0).length = 1 := by
  refine ⟨rfl, ?_, ?_⟩ <;> decide

end PathFinder